import Mathlib

/-!
Shallow embedding of the TemAllocator linear (arena) allocator from
src/linear_allocator.hpp. Pointers are represented as byte offsets from
the buffer base, taking the base at address 0, so the code's address
computations coincide with offset computations; size_t arithmetic is
modelled with an explicit `% 2 ^ 64` where it can overflow. `sz` stands
for `sizeof(T)`, `al` for `alignof(T)` and `C` for the buffer capacity
`data.getBufferSize()`.
-/

namespace TemAllocator

/-- `isPowerOfTwo` from src/linear_allocator.hpp: `(x & (x - 1)) == 0`.
At `x = 0` the C++ computes `0 & SIZE_MAX = 0` and the Nat translation
computes `0 &&& 0 = 0`; both yield `true`. -/
def isPowerOfTwo (x : Nat) : Bool :=
  x &&& (x - 1) == 0

/-- `alignForward` from src/linear_allocator.hpp. `modulo` is
`ptr & (align - 1)`; when it is nonzero the code does
`ptr += align - modulo`, a size_t addition that wraps modulo `2 ^ 64`. -/
def alignForward (ptr align : Nat) : Nat :=
  if ptr &&& (align - 1) ≠ 0 then
    (ptr + (align - (ptr &&& (align - 1)))) % 2 ^ 64
  else ptr

/-- Cursor state of `LinearAllocatorData`: the byte offset `used` of the
next free position and `previousAllocationSize`, the size in bytes of
the most recent allocation. -/
structure ArenaState where
  used : Nat
  previousAllocationSize : Nat
  deriving DecidableEq

/-- `LinearAllocator::calculatePadding`:
`((current / alignof(T)) + 1) * alignof(T) - current`. -/
def calculatePadding (al current : Nat) : Nat :=
  (current / al + 1) * al - current

/-- The padding `allocate` adds at cursor `used`: zero when
`used % alignof(T) == 0`, otherwise `calculatePadding` of the current
address (which equals `used` with the buffer base at 0). -/
def paddingAt (al used : Nat) : Nat :=
  if used % al = 0 then 0 else calculatePadding al used

/-- Outcome of `allocate`: a returned pointer (byte offset) together with
the new cursor state, the `nullptr` return for `count == 0`, or a thrown
`bad_alloc`; the state is unchanged in the last two cases. -/
inductive AllocResult where
  | success (ptr : Nat) (state : ArenaState)
  | nullPtr (state : ArenaState)
  | error (state : ArenaState)
  deriving DecidableEq

/-- `LinearAllocator::allocate`, with explicit fuel for its self-call in
the exhaustion branch (`clear(); return allocate(count);`). Fuel 2 is
always enough: after the reset the request fits from offset 0, so the
retry cannot recurse again (`allocateF_fresh`, `allocateF_ge_two`).
The request size is the unbounded product `sz * count`; the variant
`allocateWrapF` makes the size_t wrap of that product explicit, and the
two agree whenever `sz * count < 2 ^ 64`
(`allocateWrapF_eq_allocateF`). -/
def allocateF (sz al C : Nat) : Nat → ArenaState → Nat → AllocResult
  | 0, s, _ => AllocResult.error s
  | fuel + 1, s, count =>
    if count = 0 then AllocResult.nullPtr s
    else if C < sz * count then AllocResult.error s
    else if C < s.used + paddingAt al s.used + sz * count then
      allocateF sz al C fuel ⟨0, 0⟩ count
    else
      AllocResult.success (s.used + paddingAt al s.used)
        ⟨s.used + paddingAt al s.used + sz * count, sz * count⟩

/-- `LinearAllocator::allocate` on an arena with element size `sz`,
alignment `al` and capacity `C`. -/
def allocate (sz al C : Nat) (s : ArenaState) (count : Nat) : AllocResult :=
  allocateF sz al C 2 s count

/-- `LinearAllocator::allocate` with the size_t wrap of the request-size
product made explicit: the C++ computes
`const size_t size = sizeof(T) * count;`, which wraps modulo `2 ^ 64`,
and every later use of `size` sees the wrapped value. All other
quantities (`used`, `padding`, the capacity `C`) stay far below `2 ^ 64`
on any realizable arena, so the product is the one size_t operation of
`allocate` whose wrap is reachable. -/
def allocateWrapF (sz al C : Nat) : Nat → ArenaState → Nat → AllocResult
  | 0, s, _ => AllocResult.error s
  | fuel + 1, s, count =>
    if count = 0 then AllocResult.nullPtr s
    else if C < sz * count % 2 ^ 64 then AllocResult.error s
    else if C < s.used + paddingAt al s.used + sz * count % 2 ^ 64 then
      allocateWrapF sz al C fuel ⟨0, 0⟩ count
    else
      AllocResult.success (s.used + paddingAt al s.used)
        ⟨s.used + paddingAt al s.used + sz * count % 2 ^ 64,
         sz * count % 2 ^ 64⟩

/-- `LinearAllocator::allocate` with the wrapping size_t request size,
fuel 2 as in `allocate`. -/
def allocateWrap (sz al C : Nat) (s : ArenaState) (count : Nat) : AllocResult :=
  allocateWrapF sz al C 2 s count

/-- A `memmove(dst, src, len)` performed by `reallocate`, recorded as
destination offset, source offset and byte count. -/
structure MoveEvent where
  dst : Nat
  src : Nat
  len : Nat
  deriving DecidableEq

/-- The `doAllocation` tail of `LinearAllocator::reallocate`: a fresh
`allocate(count)` followed by `memmove(newData, oldPtr, newSize)` when
both the new and the old pointer are non-null. -/
def doAllocation (sz al C : Nat) (s : ArenaState) (oldPtr : Option Nat)
    (count newSize : Nat) : AllocResult × Option MoveEvent :=
  match allocate sz al C s count, oldPtr with
  | AllocResult.success ptr s2, some p =>
    (AllocResult.success ptr s2, some ⟨ptr, p, newSize⟩)
  | r, _ => (r, none)

/-- `LinearAllocator::reallocate`. `oldPtr` is `none` for `nullptr` and
`some` of a byte offset otherwise; `s.used - s.previousAllocationSize`
is the offset of `previousAllocation` (in every reachable state
`previousAllocationSize ≤ used`, so the size_t subtraction is exact). -/
def reallocate (sz al C : Nat) (s : ArenaState) (oldPtr : Option Nat)
    (count : Nat) : AllocResult × Option MoveEvent :=
  if C < sz * count then (AllocResult.error s, none)
  else
    match oldPtr with
    | some p =>
      if s.used - s.previousAllocationSize = p then
        if sz * count < s.previousAllocationSize then
          (AllocResult.success p
            ⟨s.used - (s.previousAllocationSize - sz * count), sz * count⟩,
           none)
        else if s.used + (sz * count - s.previousAllocationSize) ≤ C then
          doAllocation sz al C s (some p) count (sz * count)
        else
          (AllocResult.success p
            ⟨s.used + (sz * count - s.previousAllocationSize), sz * count⟩,
           none)
      else
        doAllocation sz al C s (some p) count (sz * count)
    | none => doAllocation sz al C s none count (sz * count)

/-- `LinearAllocator::clear` (soft): `used = 0`,
`previousAllocationSize = 0`; hard clearing additionally zero-fills the
buffer, which holds no cursor state. -/
def clearArena (_ : ArenaState) : ArenaState := ⟨0, 0⟩

/-- `LinearAllocator::deallocate`: a no-op. -/
def deallocate (s : ArenaState) : ArenaState := s

/-- Modelled from the spec: `saveState()` is described in spec §4.4 but
absent from src/; it returns the current `used` value as an opaque
checkpoint. -/
def saveState (s : ArenaState) : Nat := s.used

/-- Modelled from the spec: `restore(checkpoint)` is described in spec
§4.4 but absent from src/; when `checkpoint ≤ used` it sets
`used = checkpoint` and forgets the last-allocation record, otherwise it
is a harmless no-op. -/
def restore (s : ArenaState) (c : Nat) : ArenaState :=
  if c ≤ s.used then ⟨c, 0⟩ else s

/-- The arena state an `allocate` call leaves behind. -/
def stateAfter : AllocResult → ArenaState
  | AllocResult.success _ s => s
  | AllocResult.nullPtr s => s
  | AllocResult.error s => s

/-- Whether `allocate(count)` from state `s` triggers the exhaustion
reset: the request fits the arena but not the tail after the cursor. -/
def allocResets (sz al C : Nat) (s : ArenaState) (count : Nat) : Bool :=
  decide (count ≠ 0) && decide (sz * count ≤ C) &&
    decide (C < s.used + paddingAt al s.used + sz * count)

/-- Run a sequence of `allocate` calls, threading the state. -/
def allocSeq (sz al C : Nat) : ArenaState → List Nat → ArenaState
  | s, [] => s
  | s, c :: rest => allocSeq sz al C (stateAfter (allocate sz al C s c)) rest

/-- No `allocate` call in the sequence triggers the exhaustion reset. -/
def noResetSeq (sz al C : Nat) : ArenaState → List Nat → Bool
  | _, [] => true
  | s, c :: rest =>
    !allocResets sz al C s c &&
      noResetSeq sz al C (stateAfter (allocate sz al C s c)) rest

/-! Helper lemmas about the embedding. -/

lemma allocateF_succ (sz al C count fuel : Nat) (s : ArenaState) :
    allocateF sz al C (fuel + 1) s count =
      if count = 0 then AllocResult.nullPtr s
      else if C < sz * count then AllocResult.error s
      else if C < s.used + paddingAt al s.used + sz * count then
        allocateF sz al C fuel ⟨0, 0⟩ count
      else
        AllocResult.success (s.used + paddingAt al s.used)
          ⟨s.used + paddingAt al s.used + sz * count, sz * count⟩ := rfl

lemma allocate_def (sz al C count : Nat) (s : ArenaState) :
    allocate sz al C s count =
      if count = 0 then AllocResult.nullPtr s
      else if C < sz * count then AllocResult.error s
      else if C < s.used + paddingAt al s.used + sz * count then
        allocateF sz al C 1 ⟨0, 0⟩ count
      else
        AllocResult.success (s.used + paddingAt al s.used)
          ⟨s.used + paddingAt al s.used + sz * count, sz * count⟩ :=
  allocateF_succ sz al C count 1 s

lemma paddingAt_zero (al : Nat) : paddingAt al 0 = 0 := by
  simp [paddingAt]

lemma allocateF_fresh (sz al C count fuel : Nat) (h0 : count ≠ 0)
    (h1 : ¬ C < sz * count) :
    allocateF sz al C (fuel + 1) ⟨0, 0⟩ count =
      AllocResult.success 0 ⟨sz * count, sz * count⟩ := by
  rw [allocateF_succ]
  simp [h0, h1, paddingAt_zero]

lemma allocateF_ge_two (sz al C count fuel : Nat) (s : ArenaState) :
    allocateF sz al C (fuel + 2) s count = allocate sz al C s count := by
  have hL : allocateF sz al C (fuel + 2) s count =
      allocateF sz al C (fuel + 1 + 1) s count := rfl
  rw [hL, allocateF_succ, allocate_def]
  by_cases h0 : count = 0
  · rw [if_pos h0, if_pos h0]
  · rw [if_neg h0, if_neg h0]
    by_cases h1 : C < sz * count
    · rw [if_pos h1, if_pos h1]
    · rw [if_neg h1, if_neg h1]
      by_cases h2 : C < s.used + paddingAt al s.used + sz * count
      · rw [if_pos h2, if_pos h2, allocateF_fresh sz al C count fuel h0 h1,
          allocateF_fresh sz al C count 0 h0 h1]
      · rw [if_neg h2, if_neg h2]

lemma allocateWrapF_succ (sz al C count fuel : Nat) (s : ArenaState) :
    allocateWrapF sz al C (fuel + 1) s count =
      if count = 0 then AllocResult.nullPtr s
      else if C < sz * count % 2 ^ 64 then AllocResult.error s
      else if C < s.used + paddingAt al s.used + sz * count % 2 ^ 64 then
        allocateWrapF sz al C fuel ⟨0, 0⟩ count
      else
        AllocResult.success (s.used + paddingAt al s.used)
          ⟨s.used + paddingAt al s.used + sz * count % 2 ^ 64,
           sz * count % 2 ^ 64⟩ := rfl

lemma allocateWrapF_eq_allocateF (sz al C count : Nat)
    (h : sz * count < 2 ^ 64) :
    ∀ (fuel : Nat) (s : ArenaState),
      allocateWrapF sz al C fuel s count = allocateF sz al C fuel s count := by
  intro fuel
  induction fuel with
  | zero => intro s; rfl
  | succ n ih =>
    intro s
    rw [allocateWrapF_succ, allocateF_succ, Nat.mod_eq_of_lt h]
    by_cases h0 : count = 0
    · rw [if_pos h0, if_pos h0]
    · rw [if_neg h0, if_neg h0]
      by_cases h1 : C < sz * count
      · rw [if_pos h1, if_pos h1]
      · rw [if_neg h1, if_neg h1]
        by_cases h2 : C < s.used + paddingAt al s.used + sz * count
        · rw [if_pos h2, if_pos h2]
          exact ih _
        · rw [if_neg h2, if_neg h2]

lemma allocateWrap_eq_allocate (sz al C count : Nat) (s : ArenaState)
    (h : sz * count < 2 ^ 64) :
    allocateWrap sz al C s count = allocate sz al C s count :=
  allocateWrapF_eq_allocateF sz al C count h 2 s

lemma doAllocation_none (sz al C count newSize : Nat) (s : ArenaState) :
    doAllocation sz al C s none count newSize =
      (allocate sz al C s count, none) := by
  unfold doAllocation
  cases allocate sz al C s count <;> rfl

lemma allocResets_spec (sz al C count : Nat) (s : ArenaState) :
    allocResets sz al C s count = true ↔
      count ≠ 0 ∧ sz * count ≤ C ∧
        C < s.used + paddingAt al s.used + sz * count := by
  simp [allocResets, and_assoc]

lemma allocate_used_mono (sz al C count : Nat) (s : ArenaState)
    (h : allocResets sz al C s count = false) :
    s.used ≤ (stateAfter (allocate sz al C s count)).used := by
  rw [allocate_def]
  by_cases h0 : count = 0
  · simp [h0, stateAfter]
  · by_cases h1 : C < sz * count
    · simp [h0, h1, stateAfter]
    · by_cases h2 : C < s.used + paddingAt al s.used + sz * count
      · exact absurd ((allocResets_spec sz al C count s).mpr
          ⟨h0, Nat.not_lt.mp h1, h2⟩) (by simp [h])
      · simp only [if_neg h0, if_neg h1, if_neg h2, stateAfter]
        omega

lemma allocSeq_used_mono (sz al C : Nat) (l : List Nat) :
    ∀ s : ArenaState, noResetSeq sz al C s l = true →
      s.used ≤ (allocSeq sz al C s l).used := by
  induction l with
  | nil => intro s _; exact Nat.le_refl _
  | cons c rest ih =>
    intro s h
    simp only [noResetSeq, Bool.and_eq_true, Bool.not_eq_true'] at h
    simp only [allocSeq]
    exact Nat.le_trans (allocate_used_mono sz al C c s h.1) (ih _ h.2)

/-! Claim theorems. -/

/-- Claim C1 (code bug evidence): with capacity 16, `sizeof(T) = 1`,
`alignof(T) = 1`, state `used = 8`, `previousAllocationSize = 4`, and
`oldPtr` the most recent allocation at offset 4, growing it to
`newSize = 6` has the delta fit (`used + 2 ≤ 16`), yet `reallocate`
performs a fresh allocation at offset 8 with a `memmove` of 6 bytes and
`used = 14`, instead of the claimed in-place extension that returns
`oldPtr` with `used = 10` and no data movement. -/
theorem claim_C1 :
    reallocate 1 1 16 ⟨8, 4⟩ (some 4) 6 =
      (AllocResult.success 8 ⟨14, 6⟩, some ⟨8, 4, 6⟩) ∧
    reallocate 1 1 16 ⟨8, 4⟩ (some 4) 6 ≠
      (AllocResult.success 4 ⟨10, 6⟩, none) := by decide

/-- Claim C2 (code bug evidence): with capacity 10 and state `used = 10`,
`previousAllocationSize = 2` (reachable by allocating 8 then 2 bytes),
growing the most recent allocation at offset 8 to `newSize = 4` makes
`reallocate` execute `used += diff` in the branch where the delta does
not fit, leaving `used = 12 > C = 10` and breaking `0 ≤ used ≤ C`. -/
theorem claim_C2 :
    reallocate 1 1 10 ⟨10, 2⟩ (some 8) 4 =
      (AllocResult.success 8 ⟨12, 4⟩, none) ∧ 10 < 12 := by decide

/-- Claim C3 (code bug evidence): with capacity 16, state `used = 8`,
`previousAllocationSize = 4`, and `oldPtr` the most recent allocation at
offset 4, `reallocate` to the equal size `newSize = 4` (a shrink case of
the claim, `newSize ≤ lastAllocationSize`) does not stay in place: it
performs a fresh allocation at offset 8 with a 4-byte `memmove` and
`used = 12`, instead of returning `oldPtr` with `used` unchanged. -/
theorem claim_C3 :
    reallocate 1 1 16 ⟨8, 4⟩ (some 4) 4 =
      (AllocResult.success 8 ⟨12, 4⟩, some ⟨8, 4, 4⟩) ∧
    reallocate 1 1 16 ⟨8, 4⟩ (some 4) 4 ≠
      (AllocResult.success 4 ⟨8, 4⟩, none) := by decide

/-- Claim C4 (code bug evidence): with capacity 16, state `used = 8`,
`previousAllocationSize = 4`, and `oldPtr` at offset 0 a 4-byte
allocation that is not the most recent one, `reallocate` to
`newSize = 6` copies `newSize = 6` bytes, not the claimed
`min(oldSize, newSize) = min 4 6 = 4`, reading past the old region. -/
theorem claim_C4 :
    reallocate 1 1 16 ⟨8, 4⟩ (some 0) 6 =
      (AllocResult.success 8 ⟨14, 6⟩, some ⟨8, 0, 6⟩) ∧
    (6 : Nat) ≠ min 4 6 := by decide

/-- Claim C5: when the request has `1 ≤ count`, its size fits the arena
(`sz * count ≤ C`) but not the tail after the aligned cursor, `allocate`
clears the arena and retries once from the cleared state, and the retry
succeeds returning the pointer at offset 0 of the buffer. -/
theorem claim_C5 (sz al C count : Nat) (s : ArenaState)
    (hc : 1 ≤ count) (hfit : sz * count ≤ C)
    (hfull : C < s.used + paddingAt al s.used + sz * count) :
    allocate sz al C s count =
      AllocResult.success 0 ⟨sz * count, sz * count⟩ ∧
    allocate sz al C s count = allocateF sz al C 1 ⟨0, 0⟩ count := by
  have h0 : count ≠ 0 := by omega
  have h1 : ¬ C < sz * count := Nat.not_lt.mpr hfit
  have hstep : allocate sz al C s count = allocateF sz al C 1 ⟨0, 0⟩ count := by
    rw [allocate_def, if_neg h0, if_neg h1, if_pos hfull]
  exact ⟨hstep.trans (allocateF_fresh sz al C count 0 h0 h1), hstep⟩

/-- Witness for C5: a 1024-byte arena of 8-byte elements with
`used = 1000`; a request for 10 elements (80 bytes) fits the arena but
not the tail, so the arena resets and the retry returns offset 0. -/
theorem claim_C5_witness :
    1 ≤ 10 ∧ 8 * 10 ≤ 1024 ∧
    1024 < 1000 + paddingAt 8 1000 + 8 * 10 ∧
    allocate 8 8 1024 ⟨1000, 8⟩ 10 =
      AllocResult.success 0 ⟨8 * 10, 8 * 10⟩ :=
  ⟨by decide, by decide, by decide,
    (claim_C5 8 8 1024 10 ⟨1000, 8⟩ (by decide) (by decide) (by decide)).1⟩

/-- Claim C6 (code bug evidence): the C++ computes
`const size_t size = sizeof(T) * count;` with a wrapping size_t
multiplication. At `sizeof(T) = 8` and `count = 2^61 + 1` on a 1024-byte
arena the mathematical size `8 * (2^61 + 1) = 2^64 + 8` exceeds the
capacity, yet the wrapped size is 8, the capacity check passes, and
`allocate` succeeds, returning an 8-byte block at offset 0 — silently
truncating the request instead of the claimed hard `bad_alloc`
failure. -/
theorem claim_C6 :
    1024 < 8 * (2 ^ 61 + 1) ∧
    allocateWrap 8 8 1024 ⟨0, 0⟩ (2 ^ 61 + 1) =
      AllocResult.success 0 ⟨8, 8⟩ := by decide

/-- Counterexample to C7 as stated: at `address = 2^64 - 1` and the
power-of-two alignment 2 the size_t increment wraps, `alignForward`
returns 0, and the result is neither ≥ the address nor inside
`[address, address + align)`. -/
theorem claim_C7_counterexample :
    ¬ (alignForward (2 ^ 64 - 1) 2 % 2 = 0 ∧
       2 ^ 64 - 1 ≤ alignForward (2 ^ 64 - 1) 2 ∧
       alignForward (2 ^ 64 - 1) 2 < 2 ^ 64 - 1 + 2) := by decide

/-- Claim C7 as amended: for every address and power-of-two alignment
such that the bump `address + align` does not exceed `2^64` (no size_t
wrap), `alignForward` returns a multiple of `align` lying in
`[address, address + align)` — hence the smallest aligned address at or
after `address`. -/
theorem claim_C7 (ptr align : Nat) (hpow : ∃ k, align = 2 ^ k)
    (hfit : ptr + align ≤ 2 ^ 64) :
    alignForward ptr align % align = 0 ∧
    ptr ≤ alignForward ptr align ∧
    alignForward ptr align < ptr + align := by
  obtain ⟨k, rfl⟩ := hpow
  have hal : (0 : Nat) < 2 ^ k := Nat.two_pow_pos k
  have hmask : ptr &&& (2 ^ k - 1) = ptr % 2 ^ k :=
    Nat.and_pow_two_sub_one_eq_mod ptr k
  rw [alignForward, hmask]
  by_cases h : ptr % 2 ^ k = 0
  · rw [if_neg (not_not_intro h)]
    exact ⟨h, Nat.le_refl ptr, Nat.lt_add_of_pos_right hal⟩
  · rw [if_pos h]
    have hm1 : ptr % 2 ^ k < 2 ^ k := Nat.mod_lt ptr hal
    have hm2 : 0 < ptr % 2 ^ k := Nat.pos_of_ne_zero h
    have hlt : ptr + (2 ^ k - ptr % 2 ^ k) < 2 ^ 64 := by omega
    rw [Nat.mod_eq_of_lt hlt]
    have hdm : 2 ^ k * (ptr / 2 ^ k) + ptr % 2 ^ k = ptr :=
      Nat.div_add_mod ptr (2 ^ k)
    refine ⟨?_, Nat.le_add_right _ _, ?_⟩
    · have hrw : ptr + (2 ^ k - ptr % 2 ^ k) = 2 ^ k * (ptr / 2 ^ k + 1) := by
        calc ptr + (2 ^ k - ptr % 2 ^ k)
            = 2 ^ k * (ptr / 2 ^ k) + ptr % 2 ^ k + (2 ^ k - ptr % 2 ^ k) := by
              rw [hdm]
          _ = 2 ^ k * (ptr / 2 ^ k) + (ptr % 2 ^ k + (2 ^ k - ptr % 2 ^ k)) := by
              rw [Nat.add_assoc]
          _ = 2 ^ k * (ptr / 2 ^ k) + 2 ^ k := by
              rw [Nat.add_sub_cancel' (Nat.le_of_lt hm1)]
          _ = 2 ^ k * (ptr / 2 ^ k + 1) := by rw [Nat.mul_add, Nat.mul_one]
      rw [hrw, Nat.mul_mod_right]
    · have : 2 ^ k - ptr % 2 ^ k < 2 ^ k := Nat.sub_lt hal hm2
      omega

/-- Witness for C7 at address 13 and alignment 8: the aligned result
is a multiple of 8 inside `[13, 21)`. -/
theorem claim_C7_witness :
    (8 : Nat) = 2 ^ 3 ∧ 13 + 8 ≤ 2 ^ 64 ∧
    alignForward 13 8 % 8 = 0 ∧ 13 ≤ alignForward 13 8 ∧
    alignForward 13 8 < 13 + 8 := by
  refine ⟨by decide, by norm_num, ?_⟩
  exact claim_C7 13 8 ⟨3, by decide⟩ (by norm_num)

/-- Counterexample to C8 as stated: in a 10-byte arena with checkpoint
`used = 8`, a subsequent `allocate` of 5 bytes triggers the exhaustion
reset and leaves `used = 5 < 8`, so restoring the checkpoint is a no-op
and `used` ends at 5, not at the checkpoint value 8. -/
theorem claim_C8_counterexample :
    (restore (allocSeq 1 1 10 ⟨8, 8⟩ [5]) (saveState ⟨8, 8⟩)).used ≠
      saveState ⟨8, 8⟩ := by decide

/-- Claim C8 as amended: `saveState` returns the current `used`;
`restore c` with `c ≤ used` sets `used = c` and forgets the
last-allocation record while `restore c` with `c > used` is a no-op;
and a save followed by any number of allocations none of which triggers
the exhaustion reset, followed by a restore of that checkpoint, leaves
`used` exactly at the checkpoint value. -/
theorem claim_C8 (sz al C : Nat) (s : ArenaState) (l : List Nat)
    (h : noResetSeq sz al C s l = true) :
    saveState s = s.used ∧
    (∀ c, c ≤ s.used → restore s c = ⟨c, 0⟩) ∧
    (∀ c, s.used < c → restore s c = s) ∧
    restore (allocSeq sz al C s l) (saveState s) = ⟨s.used, 0⟩ := by
  refine ⟨rfl, fun c hc => ?_, fun c hc => ?_, ?_⟩
  · simp [restore, hc]
  · simp only [restore]
    rw [if_neg (not_le.mpr hc)]
  · have hmono := allocSeq_used_mono sz al C l s h
    simp only [restore, saveState]
    rw [if_pos hmono]

/-- Witness for C8: in a 10-byte arena, saving at `used = 0`, allocating
3 then 4 bytes (no reset), and restoring brings `used` back to 0. -/
theorem claim_C8_witness :
    noResetSeq 1 1 10 ⟨0, 0⟩ [3, 4] = true ∧
    restore (allocSeq 1 1 10 ⟨0, 0⟩ [3, 4]) (saveState ⟨0, 0⟩) = ⟨0, 0⟩ :=
  ⟨by decide, (claim_C8 1 1 10 ⟨0, 0⟩ [3, 4] (by decide)).2.2.2⟩

/-- Claim C9: `reallocate(nullptr, count)` is observably equivalent to
`allocate(count)`: it produces the same result and final state, and
performs no byte copy. -/
theorem claim_C9 (sz al C count : Nat) (s : ArenaState) :
    reallocate sz al C s none count = (allocate sz al C s count, none) := by
  unfold reallocate
  by_cases h : C < sz * count
  · have h0 : count ≠ 0 := by
      intro hz
      rw [hz, Nat.mul_zero] at h
      exact Nat.not_lt_zero _ h
    rw [if_pos h, allocate_def, if_neg h0, if_pos h]
  · rw [if_neg h]
    exact doAllocation_none sz al C count (sz * count) s

/-- Claim C10: the power-of-two predicate guarding `alignForward` accepts
zero — `isPowerOfTwo 0` is `true` — although zero is not a power of two,
so an alignment of 0 passes the precondition check. -/
theorem claim_C10 :
    isPowerOfTwo 0 = true ∧ ∀ k : Nat, (2 : Nat) ^ k ≠ 0 :=
  ⟨by decide, fun k => (Nat.two_pow_pos k).ne'⟩

end TemAllocator
